import Mathlib

/-!
Verification of the recipe-board mini application (`app.py`) and its
bootstrap/seed utility (`db_init.py`) against its specification.

The web handler `index` (GET/POST on `/`), its validation logic, the
datastore insert/fetch, and the seed script are shallowly embedded as pure
Lean functions and state-passing over an explicit store.
-/

namespace RecipeApp

/-- ASCII whitespace stripped by Python `str.strip()` (space, tab, LF, CR,
vertical tab, form feed); the application only feeds it form text. -/
def isPySpace (c : Char) : Bool :=
  c = ' ' || c = '\t' || c = '\n' || c = '\r' || c = '\x0b' || c = '\x0c'

/-- `l` with leading and trailing whitespace removed: Python `str.strip()`. -/
def pyStripList (l : List Char) : List Char :=
  ((l.dropWhile isPySpace).reverse.dropWhile isPySpace).reverse

/-- Python `s.strip()`. -/
def pyStrip (s : String) : String := ⟨pyStripList s.toList⟩

/-- Numeric value of an ASCII digit. -/
def digitVal (c : Char) : Nat := c.toNat - 48

/-- Continuation of Python base-10 digit parsing after at least one digit:
single underscores are allowed between digits (`1_0`), but not doubled,
leading, or trailing. -/
def parseDigitsTail : List Char → Nat → Option Nat
  | [], acc => some acc
  | '_' :: c :: rest, acc =>
      if c.isDigit then parseDigitsTail rest (acc * 10 + digitVal c) else none
  | c :: rest, acc =>
      if c.isDigit then parseDigitsTail rest (acc * 10 + digitVal c) else none

/-- A nonempty digit run (with optional underscore separators), as accepted
by Python `int()` after the optional sign. -/
def parseUnsigned : List Char → Option Nat
  | c :: rest => if c.isDigit then parseDigitsTail rest (digitVal c) else none
  | [] => none

/-- Python `int(s)` for base-10 text: surrounding whitespace stripped,
optional `+`/`-` sign, then digits with optional single underscores between
them; `none` models `ValueError`. -/
def pyInt (s : String) : Option Int :=
  match pyStripList s.toList with
  | '+' :: rest => (parseUnsigned rest).map Int.ofNat
  | '-' :: rest => (parseUnsigned rest).map (fun n => -(n : Int))
  | cs => (parseUnsigned cs).map Int.ofNat

/-! ### User-facing messages (verbatim from `app.py`) -/

def msgTitleRequired : String := "タイトルは必須です。"

def msgTitleTooLong : String := "タイトルは200文字以内で入力してください。"

def msgMinutesRequired : String := "所要分数は必須です。"

def msgMinutesNotInt : String := "所要分数は整数で入力してください。"

def msgMinutesGe1 : String := "所要分数は1以上の整数で入力してください。"

def msgDbNotConfigured : String := "データベースが未設定のため保存できません。DATABASE_URL を設定してください。"

def msgSaveError : String := "保存中にエラーが発生しました。入力内容を確認のうえ、再度お試しください。"

/-! ### Data model -/

/-- One row of the `recipes` table of the live service.  `created_at` is an
abstract store-assigned timestamp (larger = later). -/
structure RecipeRow where
  id : Nat
  title : String
  minutes : Int
  description : Option String
  created_at : Nat
deriving Repr, DecidableEq

/-- The datastore: its rows, the next autoincrement id, and the clock value
`now()` the server would assign to an insert happening now. -/
structure Store where
  rows : List RecipeRow
  nextId : Nat
  now : Nat
deriving Repr, DecidableEq

/-- A configured engine: the store plus whether the next insert / fetch
raises a datastore exception. -/
structure DbConfig where
  store : Store
  insertRaises : Bool
  fetchRaises : Bool
deriving Repr, DecidableEq

/-- A POST body; `none` models an absent form field (`request.form.get`). -/
structure FormData where
  title : Option String
  minutes : Option String
  description : Option String
deriving Repr, DecidableEq

/-- The values echoed back into the form fields on re-render. -/
structure FormValues where
  title : String
  minutes : String
  description : String
deriving Repr, DecidableEq

inductive Method where
  | get
  | post
deriving Repr, DecidableEq

/-- The handler response: a 302 redirect to `GET /`, or a 200 HTML render of
the page carrying the error banner list, the echoed form values, the recipe
list, and the `db_ready` template flag (the "database not configured" notice
is shown exactly when `dbReady` is false). -/
inductive Response where
  | redirectIndex : Response
  | page (errors : List String) (formValues : FormValues) (recipes : List RecipeRow)
      (dbReady : Bool) : Response
deriving Repr, DecidableEq

/-- Whether the rendered response shows the `DB未設定` notice
(template: rendered iff `not db_ready`). -/
def dbNotice : Response → Bool
  | .redirectIndex => false
  | .page _ _ _ dbReady => !dbReady

/-- `request.form.get(k) or ""`. -/
def formGet (f : Option String) : String := f.getD ""

/-- Python `s or None` on a string: empty becomes `None`. -/
def orNone (s : String) : Option String := if s = "" then none else some s

/-- The comparator realised by `ORDER BY created_at DESC, id DESC`. -/
def recipeLe (a b : RecipeRow) : Bool :=
  decide (b.created_at < a.created_at) ||
    (decide (a.created_at = b.created_at) && decide (b.id ≤ a.id))

/-- The list query issued on every render:
`session.query(Recipe).order_by(created_at.desc(), id.desc()).all()`. -/
def fetchAll (s : Store) : List RecipeRow := s.rows.mergeSort recipeLe

/-- The list shown on the page: empty when the engine is unconfigured, empty
when the fetch raises (caught and silenced), sorted rows otherwise. -/
def fetchList : Option DbConfig → List RecipeRow
  | none => []
  | some cfg => if cfg.fetchRaises then [] else fetchAll cfg.store

/-- `session.add(Recipe(...)); session.commit()`: appends one row with the
autoincrement id and the server-clock timestamp. -/
def insertRecipe (s : Store) (title : String) (minutes : Int)
    (description : Option String) : Store :=
  { rows := s.rows ++
      [{ id := s.nextId, title := title, minutes := minutes,
         description := description, created_at := s.now }],
    nextId := s.nextId + 1, now := s.now }

/-- The POST validation block of `index` (lines 204-223 of `app.py`),
applied to the already-stripped title and minutes text: returns the
collected error list and the parsed minutes value (`minutes_val`). -/
def validatePost (title minutesRaw : String) (dbReady : Bool) :
    List String × Option Int :=
  let errsTitle :=
    (if title = "" then [msgTitleRequired] else []) ++
    (if 200 < title.length then [msgTitleTooLong] else [])
  let minutesPart : List String × Option Int :=
    if minutesRaw = "" then ([msgMinutesRequired], none)
    else
      match pyInt minutesRaw with
      | some v => ((if v < 1 then [msgMinutesGe1] else []), some v)
      | none => ([msgMinutesNotInt], none)
  let errsDb := if dbReady then [] else [msgDbNotConfigured]
  (errsTitle ++ minutesPart.1 ++ errsDb, minutesPart.2)

/-- The POST branch of `index`: strip the three fields, validate, and when
no error is present, the engine exists and `minutes_val` is available,
attempt the insert (redirect on success, generic error on a raised
exception); otherwise re-render the page with the collected errors, the
echoed values and the fetched list. -/
def handlePost (form : FormData) (db : Option DbConfig) :
    Response × Option DbConfig :=
  let title := pyStrip (formGet form.title)
  let minutesRaw := pyStrip (formGet form.minutes)
  let description := pyStrip (formGet form.description)
  let fv : FormValues := ⟨title, minutesRaw, description⟩
  match db, (validatePost title minutesRaw db.isSome).2,
      (validatePost title minutesRaw db.isSome).1 with
  | some cfg, some v, [] =>
      if cfg.insertRaises then
        (.page [msgSaveError] fv (fetchList (some cfg)) true, some cfg)
      else
        (.redirectIndex,
         some { cfg with store := insertRecipe cfg.store title v (orNone description) })
  | _, _, _ =>
      (.page (validatePost title minutesRaw db.isSome).1 fv (fetchList db)
        db.isSome, db)

/-- The `index` route handler: state-passing embedding returning the
response and the datastore after the request. -/
def index (method : Method) (form : FormData) (db : Option DbConfig) :
    Response × Option DbConfig :=
  match method with
  | .get => (.page [] ⟨"", "", ""⟩ (fetchList db) db.isSome, db)
  | .post => handlePost form db

/-! ### Seed utility (`db_init.py`) -/

/-- One row of the seed utility's `recipes` table
(`id SERIAL PRIMARY KEY, title TEXT NOT NULL, body TEXT,
created_at TIMESTAMPTZ DEFAULT now()`). -/
structure SeedRow where
  id : Nat
  title : String
  body : Option String
  created_at : Nat
deriving Repr, DecidableEq

/-- The seed utility's table state: rows, the serial sequence, the clock. -/
structure SeedTable where
  rows : List SeedRow
  nextId : Nat
  now : Nat
deriving Repr, DecidableEq

/-- One `VALUES` tuple of `seed_sql` under `ON CONFLICT DO NOTHING`: the row
is skipped only when it conflicts with a uniqueness constraint of the table,
and the only such constraint declared in `schema_sql` is the primary key on
the serial `id` column. -/
def seedInsertRow (t : SeedTable) (title : String) (body : Option String) :
    SeedTable :=
  if t.rows.any (fun r => r.id == t.nextId) then t
  else
    { rows := t.rows ++
        [{ id := t.nextId, title := title, body := body, created_at := t.now }],
      nextId := t.nextId + 1, now := t.now }

def sampleTitle1 : String := "卵焼き"

def sampleBody1 : String := "卵・砂糖・塩を混ぜて焼く"

def sampleTitle2 : String := "味噌汁"

def sampleBody2 : String := "出汁・味噌・豆腐・わかめ"

/-- The execution of `seed_sql` with the two sample tuples bound. -/
def runSeed (t : SeedTable) : SeedTable :=
  seedInsertRow (seedInsertRow t sampleTitle1 (some sampleBody1))
    sampleTitle2 (some sampleBody2)

/-! ### Helper lemmas -/

lemma mem_if_singleton {a b : String} {c : Prop} [Decidable c] :
    a ∈ (if c then [b] else []) ↔ c ∧ a = b := by
  split <;> simp_all

lemma pyInt_empty : pyInt "" = none := rfl

/-- When the stripped fields pass every check against a configured engine,
the validation block collects no error and yields the parsed value. -/
lemma validate_ok {title minutesRaw : String} {v : Int}
    (ht : title ≠ "") (hlen : title.length ≤ 200)
    (hm : pyInt minutesRaw = some v) (hv : 1 ≤ v) :
    validatePost title minutesRaw true = ([], some v) := by
  have hmr : minutesRaw ≠ "" := by
    intro h
    rw [h, pyInt_empty] at hm
    exact Option.noConfusion hm
  simp [validatePost, ht, hmr, hm, Nat.not_lt.mpr hlen, Int.not_lt.mpr hv]

/-- Successful-save branch of the POST handler. -/
lemma handlePost_insert {form : FormData} {cfg : DbConfig} {v : Int}
    (ht : pyStrip (formGet form.title) ≠ "")
    (hlen : (pyStrip (formGet form.title)).length ≤ 200)
    (hm : pyInt (pyStrip (formGet form.minutes)) = some v) (hv : 1 ≤ v)
    (hins : cfg.insertRaises = false) :
    handlePost form (some cfg) =
      (.redirectIndex,
       some { cfg with
              store := insertRecipe cfg.store (pyStrip (formGet form.title)) v
                         (orNone (pyStrip (formGet form.description))) }) := by
  have hval := validate_ok ht hlen hm hv
  simp [handlePost, hval, hins]

/-- Save-attempt branch when the datastore raises during the insert. -/
lemma handlePost_insert_raises {form : FormData} {cfg : DbConfig} {v : Int}
    (ht : pyStrip (formGet form.title) ≠ "")
    (hlen : (pyStrip (formGet form.title)).length ≤ 200)
    (hm : pyInt (pyStrip (formGet form.minutes)) = some v) (hv : 1 ≤ v)
    (hins : cfg.insertRaises = true) :
    handlePost form (some cfg) =
      (.page [msgSaveError]
        ⟨pyStrip (formGet form.title), pyStrip (formGet form.minutes),
         pyStrip (formGet form.description)⟩
        (fetchList (some cfg)) true, some cfg) := by
  have hval := validate_ok ht hlen hm hv
  simp [handlePost, hval, hins]

/-- Any POST whose validation collects at least one error re-renders the
page with the collected errors, the stripped echoed values, and the fetched
list, leaving the datastore untouched. -/
lemma handlePost_fail {form : FormData} {db : Option DbConfig}
    (h : (validatePost (pyStrip (formGet form.title))
        (pyStrip (formGet form.minutes)) db.isSome).1 ≠ []) :
    handlePost form db =
      (.page (validatePost (pyStrip (formGet form.title))
          (pyStrip (formGet form.minutes)) db.isSome).1
        ⟨pyStrip (formGet form.title), pyStrip (formGet form.minutes),
         pyStrip (formGet form.description)⟩
        (fetchList db) db.isSome, db) := by
  cases db with
  | none => simp [handlePost]
  | some cfg =>
      rcases h2 : (validatePost (pyStrip (formGet form.title))
          (pyStrip (formGet form.minutes)) true).2 with _ | v
      · simp only [Option.isSome_some] at h ⊢
        simp [handlePost, h2]
      · rcases h1 : (validatePost (pyStrip (formGet form.title))
            (pyStrip (formGet form.minutes)) true).1 with _ | ⟨e, es⟩
        · simp only [Option.isSome_some] at h
          exact absurd h1 h
        · simp only [Option.isSome_some] at h ⊢
          simp [handlePost, h1, h2]

/-! ### C1 -/

/-- C1: a POST whose title strips to a non-empty string of at most 200
characters, whose minutes text parses (Python `int`) to an integer ≥ 1,
against a configured engine whose insert succeeds, appends exactly one row —
carrying the stripped title, the parsed minutes, and the stripped
description normalized to NULL when empty — and responds with a redirect to
`GET /`. -/
theorem post_valid_inserts_one_row_and_redirects
    (form : FormData) (cfg : DbConfig) (v : Int)
    (ht : pyStrip (formGet form.title) ≠ "")
    (hlen : (pyStrip (formGet form.title)).length ≤ 200)
    (hm : pyInt (pyStrip (formGet form.minutes)) = some v)
    (hv : 1 ≤ v)
    (hins : cfg.insertRaises = false) :
    index .post form (some cfg) =
      (Response.redirectIndex,
       some { cfg with store :=
         { rows := cfg.store.rows ++
             [{ id := cfg.store.nextId,
                title := pyStrip (formGet form.title),
                minutes := v,
                description := orNone (pyStrip (formGet form.description)),
                created_at := cfg.store.now }],
           nextId := cfg.store.nextId + 1,
           now := cfg.store.now } }) := by
  show handlePost form (some cfg) = _
  rw [handlePost_insert ht hlen hm hv hins]
  rfl

/-- C1 witness: a concrete valid submission against an empty store. -/
theorem post_valid_inserts_one_row_and_redirects_witness :
    pyStrip (formGet (FormData.mk (some " Eggs ") (some " 10 ") (some "  ")).title) ≠ "" ∧
    (pyStrip (formGet (FormData.mk (some " Eggs ") (some " 10 ") (some "  ")).title)).length ≤ 200 ∧
    pyInt (pyStrip (formGet (FormData.mk (some " Eggs ") (some " 10 ") (some "  ")).minutes)) = some 10 ∧
    (1 : Int) ≤ 10 ∧
    (DbConfig.mk (Store.mk [] 1 5) false false).insertRaises = false ∧
    index .post (FormData.mk (some " Eggs ") (some " 10 ") (some "  "))
        (some (DbConfig.mk (Store.mk [] 1 5) false false)) =
      (Response.redirectIndex,
       some { DbConfig.mk (Store.mk [] 1 5) false false with store :=
         { rows := (Store.mk [] 1 5).rows ++
             [{ id := (Store.mk [] 1 5).nextId,
                title := pyStrip (formGet (FormData.mk (some " Eggs ") (some " 10 ") (some "  ")).title),
                minutes := 10,
                description := orNone (pyStrip (formGet (FormData.mk (some " Eggs ") (some " 10 ") (some "  ")).description)),
                created_at := (Store.mk [] 1 5).now }],
           nextId := (Store.mk [] 1 5).nextId + 1,
           now := (Store.mk [] 1 5).now } }) :=
  ⟨by decide, by decide, by decide, by decide, rfl,
   post_valid_inserts_one_row_and_redirects
     (FormData.mk (some " Eggs ") (some " 10 ") (some "  "))
     (DbConfig.mk (Store.mk [] 1 5) false false) 10
     (by decide) (by decide) (by decide) (by decide) rfl⟩

/-- Each validation message is collected exactly under its rule's condition,
independently of the other rules. -/
lemma mem_validate_iff (title minutesRaw : String) (dbReady : Bool) :
    (msgTitleRequired ∈ (validatePost title minutesRaw dbReady).1 ↔ title = "") ∧
    (msgTitleTooLong ∈ (validatePost title minutesRaw dbReady).1 ↔
      200 < title.length) ∧
    (msgMinutesRequired ∈ (validatePost title minutesRaw dbReady).1 ↔
      minutesRaw = "") ∧
    (msgMinutesNotInt ∈ (validatePost title minutesRaw dbReady).1 ↔
      minutesRaw ≠ "" ∧ pyInt minutesRaw = none) ∧
    (msgMinutesGe1 ∈ (validatePost title minutesRaw dbReady).1 ↔
      minutesRaw ≠ "" ∧ ∃ v, pyInt minutesRaw = some v ∧ v < 1) ∧
    (msgDbNotConfigured ∈ (validatePost title minutesRaw dbReady).1 ↔
      dbReady = false) := by
  by_cases hmr : minutesRaw = ""
  · subst hmr
    cases dbReady <;>
      simp +decide [validatePost, List.mem_append, mem_if_singleton,
        pyInt_empty]
  · rcases hpi : pyInt minutesRaw with _ | v <;> cases dbReady <;>
      simp +decide [validatePost, List.mem_append, mem_if_singleton, hmr,
        hpi]

/-! ### C2 -/

/-- C2: the POST validation behaves as the spec's reference rules — each of
the five field messages (and the datastore-availability message) appears in
the collected error list exactly under its rule's condition — and whenever
any error is present the datastore is left unchanged (no row inserted). -/
theorem validation_rules_reference (title minutesRaw : String) (dbReady : Bool)
    (form : FormData) (db : Option DbConfig)
    (herr : (validatePost (pyStrip (formGet form.title))
        (pyStrip (formGet form.minutes)) db.isSome).1 ≠ []) :
    ((msgTitleRequired ∈ (validatePost title minutesRaw dbReady).1 ↔
        title = "") ∧
      (msgTitleTooLong ∈ (validatePost title minutesRaw dbReady).1 ↔
        200 < title.length) ∧
      (msgMinutesRequired ∈ (validatePost title minutesRaw dbReady).1 ↔
        minutesRaw = "") ∧
      (msgMinutesNotInt ∈ (validatePost title minutesRaw dbReady).1 ↔
        minutesRaw ≠ "" ∧ pyInt minutesRaw = none) ∧
      (msgMinutesGe1 ∈ (validatePost title minutesRaw dbReady).1 ↔
        minutesRaw ≠ "" ∧ ∃ v, pyInt minutesRaw = some v ∧ v < 1) ∧
      (msgDbNotConfigured ∈ (validatePost title minutesRaw dbReady).1 ↔
        dbReady = false)) ∧
    (index .post form db).2 = db := by
  refine ⟨mem_validate_iff title minutesRaw dbReady, ?_⟩
  show (handlePost form db).2 = db
  rw [handlePost_fail herr]

/-- C2 witness: an empty title with a non-numeric duration against an
unconfigured store. -/
theorem validation_rules_reference_witness :
    (validatePost (pyStrip (formGet (FormData.mk (some " ") (some "abc") none).title))
        (pyStrip (formGet (FormData.mk (some " ") (some "abc") none).minutes))
        (none : Option DbConfig).isSome).1 ≠ [] ∧
    ((msgTitleRequired ∈ (validatePost "" "abc" false).1 ↔ ("" : String) = "") ∧
      (msgTitleTooLong ∈ (validatePost "" "abc" false).1 ↔
        200 < ("" : String).length) ∧
      (msgMinutesRequired ∈ (validatePost "" "abc" false).1 ↔
        ("abc" : String) = "") ∧
      (msgMinutesNotInt ∈ (validatePost "" "abc" false).1 ↔
        ("abc" : String) ≠ "" ∧ pyInt "abc" = none) ∧
      (msgMinutesGe1 ∈ (validatePost "" "abc" false).1 ↔
        ("abc" : String) ≠ "" ∧ ∃ v, pyInt "abc" = some v ∧ v < 1) ∧
      (msgDbNotConfigured ∈ (validatePost "" "abc" false).1 ↔ false = false)) ∧
    (index .post (FormData.mk (some " ") (some "abc") none) none).2 = none :=
  ⟨by decide,
   (validation_rules_reference "" "abc" false
      (FormData.mk (some " ") (some "abc") none) none (by decide)).1,
   (validation_rules_reference "" "abc" false
      (FormData.mk (some " ") (some "abc") none) none (by decide)).2⟩

/-! ### C3 -/

/-- C3: any POST with a validation failure responds with a 200 re-render of
the page carrying the full collected error list and the recipe list beneath
the form; in particular an empty trimmed title together with non-numeric
minutes text yields both messages in the same response (no
short-circuiting). -/
theorem post_invalid_rerenders_all_errors (form : FormData)
    (db : Option DbConfig)
    (herr : (validatePost (pyStrip (formGet form.title))
        (pyStrip (formGet form.minutes)) db.isSome).1 ≠ []) :
    index .post form db =
      (.page (validatePost (pyStrip (formGet form.title))
          (pyStrip (formGet form.minutes)) db.isSome).1
        ⟨pyStrip (formGet form.title), pyStrip (formGet form.minutes),
         pyStrip (formGet form.description)⟩
        (fetchList db) db.isSome, db) ∧
    (pyStrip (formGet form.title) = "" →
      pyStrip (formGet form.minutes) ≠ "" →
      pyInt (pyStrip (formGet form.minutes)) = none →
      msgTitleRequired ∈ (validatePost (pyStrip (formGet form.title))
          (pyStrip (formGet form.minutes)) db.isSome).1 ∧
        msgMinutesNotInt ∈ (validatePost (pyStrip (formGet form.title))
          (pyStrip (formGet form.minutes)) db.isSome).1) := by
  refine ⟨handlePost_fail herr, fun h1 h2 h3 => ?_⟩
  obtain ⟨m1, _, _, m4, _, _⟩ := mem_validate_iff (pyStrip (formGet form.title))
    (pyStrip (formGet form.minutes)) db.isSome
  exact ⟨m1.mpr h1, m4.mpr ⟨h2, h3⟩⟩

/-- C3 witness: empty title and non-numeric minutes in one request. -/
theorem post_invalid_rerenders_all_errors_witness :
    (validatePost (pyStrip (formGet (FormData.mk none (some "abc") none).title))
        (pyStrip (formGet (FormData.mk none (some "abc") none).minutes))
        (none : Option DbConfig).isSome).1 ≠ [] ∧
    (index .post (FormData.mk none (some "abc") none) none =
      (.page (validatePost (pyStrip (formGet (FormData.mk none (some "abc") none).title))
          (pyStrip (formGet (FormData.mk none (some "abc") none).minutes))
          (none : Option DbConfig).isSome).1
        ⟨pyStrip (formGet (FormData.mk none (some "abc") none).title),
         pyStrip (formGet (FormData.mk none (some "abc") none).minutes),
         pyStrip (formGet (FormData.mk none (some "abc") none).description)⟩
        (fetchList none) (none : Option DbConfig).isSome, none) ∧
      (pyStrip (formGet (FormData.mk none (some "abc") none).title) = "" →
        pyStrip (formGet (FormData.mk none (some "abc") none).minutes) ≠ "" →
        pyInt (pyStrip (formGet (FormData.mk none (some "abc") none).minutes)) = none →
        msgTitleRequired ∈ (validatePost (pyStrip (formGet (FormData.mk none (some "abc") none).title))
            (pyStrip (formGet (FormData.mk none (some "abc") none).minutes))
            (none : Option DbConfig).isSome).1 ∧
          msgMinutesNotInt ∈ (validatePost (pyStrip (formGet (FormData.mk none (some "abc") none).title))
            (pyStrip (formGet (FormData.mk none (some "abc") none).minutes))
            (none : Option DbConfig).isSome).1)) :=
  ⟨by decide,
   post_invalid_rerenders_all_errors (FormData.mk none (some "abc") none) none
     (by decide)⟩

/-! ### C4 (corrected) -/

/-- C4 counterexample: the claim that the re-rendered form echoes the raw
submitted text is false — the code echoes the *stripped* values.  Submitting
`minutes = " x"` re-renders with `"x"` in the field, which differs from the
submitted raw text. -/
theorem echo_raw_text_counterexample :
    (index .post (FormData.mk (some "t") (some " x") none) none).1 =
      .page [msgMinutesNotInt, msgDbNotConfigured]
        ⟨"t", "x", ""⟩ [] false ∧
    ("x" : String) ≠ " x" := by
  constructor
  · rfl
  · decide

/-- C4 amended: a POST failing validation re-renders the form echoing the
submitted values after whitespace trimming; in particular the minutes field
echoes the trimmed raw text the client sent, never a coerced/parsed value. -/
theorem post_invalid_echoes_trimmed_values (form : FormData)
    (db : Option DbConfig)
    (herr : (validatePost (pyStrip (formGet form.title))
        (pyStrip (formGet form.minutes)) db.isSome).1 ≠ []) :
    ∃ errs recipes, (index .post form db).1 =
      .page errs
        ⟨pyStrip (formGet form.title), pyStrip (formGet form.minutes),
         pyStrip (formGet form.description)⟩
        recipes db.isSome := by
  refine ⟨(validatePost (pyStrip (formGet form.title))
      (pyStrip (formGet form.minutes)) db.isSome).1, fetchList db, ?_⟩
  show (handlePost form db).1 = _
  rw [handlePost_fail herr]

/-- C4 witness: the `" x"` submission is echoed as its trimmed text. -/
theorem post_invalid_echoes_trimmed_values_witness :
    (validatePost (pyStrip (formGet (FormData.mk (some "t") (some " x") none).title))
        (pyStrip (formGet (FormData.mk (some "t") (some " x") none).minutes))
        (none : Option DbConfig).isSome).1 ≠ [] ∧
    ∃ errs recipes,
      (index .post (FormData.mk (some "t") (some " x") none) none).1 =
        .page errs
          ⟨pyStrip (formGet (FormData.mk (some "t") (some " x") none).title),
           pyStrip (formGet (FormData.mk (some "t") (some " x") none).minutes),
           pyStrip (formGet (FormData.mk (some "t") (some " x") none).description)⟩
          recipes (none : Option DbConfig).isSome :=
  ⟨by decide,
   post_invalid_echoes_trimmed_values (FormData.mk (some "t") (some " x") none)
     none (by decide)⟩

/-! ### C5 -/

lemma recipeLe_iff (a b : RecipeRow) :
    recipeLe a b = true ↔
      b.created_at < a.created_at ∨
        (a.created_at = b.created_at ∧ b.id ≤ a.id) := by
  simp [recipeLe]

lemma recipeLe_trans (a b c : RecipeRow) :
    recipeLe a b → recipeLe b c → recipeLe a c := by
  simp only [recipeLe, Bool.or_eq_true, Bool.and_eq_true, decide_eq_true_eq]
  omega

lemma recipeLe_total (a b : RecipeRow) : recipeLe a b || recipeLe b a := by
  simp only [recipeLe, Bool.or_eq_true, Bool.and_eq_true, decide_eq_true_eq]
  omega

/-- C5: a GET against a configured, reachable datastore renders exactly the
sorted query result; that list is a permutation of all stored rows, is
pairwise ordered by `created_at` descending with `id` descending as
tiebreak, and hence of any two displayed rows with equal timestamps the
earlier-displayed one has the larger (or equal) id. -/
theorem get_lists_all_rows_sorted (form : FormData) (cfg : DbConfig)
    (hf : cfg.fetchRaises = false) :
    index .get form (some cfg) =
      (.page [] ⟨"", "", ""⟩ (fetchAll cfg.store) true, some cfg) ∧
    (fetchAll cfg.store).Perm cfg.store.rows ∧
    (fetchAll cfg.store).Pairwise (fun a b =>
      b.created_at < a.created_at ∨
        (a.created_at = b.created_at ∧ b.id ≤ a.id)) ∧
    (∀ i j : Fin (fetchAll cfg.store).length, i < j →
      ((fetchAll cfg.store).get i).created_at =
          ((fetchAll cfg.store).get j).created_at →
      ((fetchAll cfg.store).get j).id ≤ ((fetchAll cfg.store).get i).id) := by
  have hsorted : (fetchAll cfg.store).Pairwise (fun a b =>
      b.created_at < a.created_at ∨
        (a.created_at = b.created_at ∧ b.id ≤ a.id)) :=
    (List.sorted_mergeSort recipeLe_trans recipeLe_total cfg.store.rows).imp
      (fun h => (recipeLe_iff _ _).mp h)
  refine ⟨?_, List.mergeSort_perm cfg.store.rows recipeLe, hsorted, ?_⟩
  · simp [index, fetchList, hf]
  · intro i j hij hca
    have := (List.pairwise_iff_get.mp hsorted) i j hij
    omega

/-- C5 witness: two rows sharing a timestamp, plus an older row. -/
theorem get_lists_all_rows_sorted_witness :
    (DbConfig.mk
        (Store.mk [RecipeRow.mk 1 "a" 3 none 7, RecipeRow.mk 2 "b" 4 none 7,
          RecipeRow.mk 3 "c" 5 none 6] 4 9) false false).fetchRaises = false ∧
    index .get (FormData.mk none none none)
        (some (DbConfig.mk
          (Store.mk [RecipeRow.mk 1 "a" 3 none 7, RecipeRow.mk 2 "b" 4 none 7,
            RecipeRow.mk 3 "c" 5 none 6] 4 9) false false)) =
      (.page [] ⟨"", "", ""⟩
        (fetchAll (Store.mk [RecipeRow.mk 1 "a" 3 none 7,
          RecipeRow.mk 2 "b" 4 none 7, RecipeRow.mk 3 "c" 5 none 6] 4 9))
        true,
       some (DbConfig.mk
         (Store.mk [RecipeRow.mk 1 "a" 3 none 7, RecipeRow.mk 2 "b" 4 none 7,
           RecipeRow.mk 3 "c" 5 none 6] 4 9) false false)) :=
  ⟨rfl,
   (get_lists_all_rows_sorted (FormData.mk none none none)
     (DbConfig.mk
       (Store.mk [RecipeRow.mk 1 "a" 3 none 7, RecipeRow.mk 2 "b" 4 none 7,
         RecipeRow.mk 3 "c" 5 none 6] 4 9) false false) rfl).1⟩

/-! ### C6 -/

lemma validate_unconfigured (t m : String) :
    (validatePost t m false).1 ≠ [] ∧
      msgDbNotConfigured ∈ (validatePost t m false).1 := by
  constructor
  · simp [validatePost]
  · simp [validatePost, List.mem_append]

/-- C6: with no connection string configured, a GET renders 200 with an
empty list and the configuration notice, and any POST — whatever the field
values — renders 200 carrying the "database not configured" error among its
messages, shows the notice, and performs no insert (the state stays
`none`; no store exists to mutate). -/
theorem unconfigured_db_degraded_mode (form : FormData) :
    index .get form none = (.page [] ⟨"", "", ""⟩ [] false, none) ∧
    dbNotice (index .get form none).1 = true ∧
    (index .post form none).2 = none ∧
    ∃ errs, (index .post form none).1 =
        .page errs
          ⟨pyStrip (formGet form.title), pyStrip (formGet form.minutes),
           pyStrip (formGet form.description)⟩ [] false ∧
      msgDbNotConfigured ∈ errs ∧
      dbNotice (index .post form none).1 = true := by
  have hne := (validate_unconfigured (pyStrip (formGet form.title))
    (pyStrip (formGet form.minutes))).1
  have hmem := (validate_unconfigured (pyStrip (formGet form.title))
    (pyStrip (formGet form.minutes))).2
  have hpost : handlePost form none =
      (.page (validatePost (pyStrip (formGet form.title))
          (pyStrip (formGet form.minutes)) false).1
        ⟨pyStrip (formGet form.title), pyStrip (formGet form.minutes),
         pyStrip (formGet form.description)⟩ [] false, none) :=
    handlePost_fail hne
  refine ⟨by simp [index, fetchList], by simp [index, fetchList, dbNotice],
    ?_, ?_⟩
  · show (handlePost form none).2 = none
    rw [hpost]
  · refine ⟨(validatePost (pyStrip (formGet form.title))
        (pyStrip (formGet form.minutes)) false).1, ?_, hmem, ?_⟩
    · show (handlePost form none).1 = _
      rw [hpost]
    · show dbNotice (handlePost form none).1 = true
      rw [hpost]
      rfl

/-! ### C7 -/

/-- C7: a datastore exception during the insert of a field-valid POST is
caught and surfaced as exactly the one generic save-error message (the
cause never reaches the client), with the store untouched and the page
still rendered; a datastore exception during the list fetch of a GET is
caught and rendered as an empty list, not a failure. -/
theorem datastore_errors_recovered (form form2 : FormData)
    (cfg cfg2 : DbConfig) (v : Int)
    (ht : pyStrip (formGet form.title) ≠ "")
    (hlen : (pyStrip (formGet form.title)).length ≤ 200)
    (hm : pyInt (pyStrip (formGet form.minutes)) = some v)
    (hv : 1 ≤ v)
    (hins : cfg.insertRaises = true)
    (hf : cfg2.fetchRaises = true) :
    index .post form (some cfg) =
      (.page [msgSaveError]
        ⟨pyStrip (formGet form.title), pyStrip (formGet form.minutes),
         pyStrip (formGet form.description)⟩
        (fetchList (some cfg)) true, some cfg) ∧
    index .get form2 (some cfg2) =
      (.page [] ⟨"", "", ""⟩ [] true, some cfg2) := by
  constructor
  · show handlePost form (some cfg) = _
    exact handlePost_insert_raises ht hlen hm hv hins
  · simp [index, fetchList, hf]

/-- C7 witness: a valid submission against an engine whose insert raises,
and a GET against an engine whose fetch raises. -/
theorem datastore_errors_recovered_witness :
    pyStrip (formGet (FormData.mk (some "t") (some "10") (some "d")).title) ≠ "" ∧
    (pyStrip (formGet (FormData.mk (some "t") (some "10") (some "d")).title)).length ≤ 200 ∧
    pyInt (pyStrip (formGet (FormData.mk (some "t") (some "10") (some "d")).minutes)) = some 10 ∧
    (1 : Int) ≤ 10 ∧
    (DbConfig.mk (Store.mk [] 1 0) true false).insertRaises = true ∧
    (DbConfig.mk (Store.mk [] 1 0) false true).fetchRaises = true ∧
    (index .post (FormData.mk (some "t") (some "10") (some "d"))
        (some (DbConfig.mk (Store.mk [] 1 0) true false)) =
      (.page [msgSaveError]
        ⟨pyStrip (formGet (FormData.mk (some "t") (some "10") (some "d")).title),
         pyStrip (formGet (FormData.mk (some "t") (some "10") (some "d")).minutes),
         pyStrip (formGet (FormData.mk (some "t") (some "10") (some "d")).description)⟩
        (fetchList (some (DbConfig.mk (Store.mk [] 1 0) true false))) true,
       some (DbConfig.mk (Store.mk [] 1 0) true false)) ∧
    index .get (FormData.mk none none none)
        (some (DbConfig.mk (Store.mk [] 1 0) false true)) =
      (.page [] ⟨"", "", ""⟩ [] true,
       some (DbConfig.mk (Store.mk [] 1 0) false true))) :=
  ⟨by decide, by decide, by decide, by decide, rfl, rfl,
   datastore_errors_recovered (FormData.mk (some "t") (some "10") (some "d"))
     (FormData.mk none none none)
     (DbConfig.mk (Store.mk [] 1 0) true false)
     (DbConfig.mk (Store.mk [] 1 0) false true) 10
     (by decide) (by decide) (by decide) (by decide) rfl rfl⟩

/-! ### C8 (seed utility) -/

/-- C8: the claim that the seed skips rows whose content is already present
is false on the code.  `seed_sql` relies on `ON CONFLICT DO NOTHING`, but
`schema_sql` declares no uniqueness constraint over the content columns —
only the serial primary key, which never conflicts on a fresh insert — so
running the seed against a table that already contains the two sample rows
inserts both of them again: starting from an empty table, two runs leave
four rows, each sample content twice. -/
theorem seed_reinserts_existing_rows :
    (runSeed (runSeed (SeedTable.mk [] 1 0))).rows.length = 4 ∧
    ((runSeed (runSeed (SeedTable.mk [] 1 0))).rows.filter
      (fun r => r.title == sampleTitle1)).length = 2 ∧
    ((runSeed (runSeed (SeedTable.mk [] 1 0))).rows.filter
      (fun r => r.title == sampleTitle2)).length = 2 ∧
    (runSeed (SeedTable.mk [] 1 0)).rows.length = 2 := by
  decide

/-! ### C9 -/

/-- C9: the minutes parser is Python's `int()`, so `"+10"` and `"1_0"` both
parse to 10, pass validation rule 4 without the "must be an integer" error,
and a submission carrying them is stored with `minutes = 10`. -/
theorem pyint_accepts_sign_and_underscores :
    pyInt "+10" = some 10 ∧
    pyInt "1_0" = some 10 ∧
    (validatePost "t" "+10" true).1 = [] ∧
    (validatePost "t" "1_0" true).1 = [] ∧
    index .post (FormData.mk (some "t") (some "+10") none)
        (some (DbConfig.mk (Store.mk [] 1 0) false false)) =
      (.redirectIndex,
       some (DbConfig.mk
         (Store.mk [RecipeRow.mk 1 "t" 10 none 0] 2 0) false false)) ∧
    index .post (FormData.mk (some "t") (some "1_0") none)
        (some (DbConfig.mk (Store.mk [] 1 0) false false)) =
      (.redirectIndex,
       some (DbConfig.mk
         (Store.mk [RecipeRow.mk 1 "t" 10 none 0] 2 0) false false)) := by
  decide

/-! ### C10 -/

lemma dropWhile_head_false (p : Char → Bool) :
    ∀ (l : List Char) c cs, l.dropWhile p = c :: cs → p c = false := by
  intro l
  induction l with
  | nil => intro c cs h; simp at h
  | cons a t ih =>
      intro c cs h
      rw [List.dropWhile_cons] at h
      by_cases hp : p a
      · rw [if_pos hp] at h
        exact ih c cs h
      · rw [if_neg hp] at h
        injection h with h1 _
        subst h1
        simpa using hp

lemma pyStripList_not_all_space {l : List Char}
    (h : pyStripList l ≠ []) : (pyStripList l).all isPySpace = false := by
  unfold pyStripList at h ⊢
  rcases hB : (l.dropWhile isPySpace).reverse.dropWhile isPySpace with _ | ⟨c, cs⟩
  · rw [hB] at h
    simp at h
  · have hc := dropWhile_head_false isPySpace _ _ _ hB
    simp [List.all_reverse, hc]

lemma pyStripList_eq_nil_of_all {l : List Char}
    (h : l.all isPySpace = true) : pyStripList l = [] := by
  have h1 : l.dropWhile isPySpace = [] := by
    rw [List.dropWhile_eq_nil_iff]
    intro x hx
    exact List.all_eq_true.mp h x hx
  simp [pyStripList, h1]

lemma pyStrip_eq_empty_of_all {s : String}
    (h : s.toList.all isPySpace = true) : pyStrip s = "" := by
  unfold pyStrip
  rw [pyStripList_eq_nil_of_all h]

lemma pyStrip_ne_empty_not_all {s : String} (h : pyStrip s ≠ "") :
    (pyStrip s).toList.all isPySpace = false := by
  have hl : pyStripList s.toList ≠ [] := by
    intro hnil
    apply h
    unfold pyStrip
    rw [hnil]
  exact pyStripList_not_all_space hl

/-- A row's description, when present, is neither empty nor pure
whitespace. -/
def descOk (r : RecipeRow) : Bool :=
  match r.description with
  | none => true
  | some d => !(d.toList.all isPySpace)

lemma orNone_some {s t : String} (h : orNone s = some t) :
    t = s ∧ s ≠ "" := by
  by_cases hs : s = ""
  · simp [orNone, hs] at h
  · simp [orNone, hs] at h
    exact ⟨h.symm, hs⟩

/-- The datastore after any POST is either untouched or extended by exactly
the one normalized row. -/
lemma handlePost_state (form : FormData) (cfg : DbConfig) :
    (handlePost form (some cfg)).2 = some cfg ∨
    ∃ v, (handlePost form (some cfg)).2 =
      some { cfg with
             store := insertRecipe cfg.store (pyStrip (formGet form.title)) v
                        (orNone (pyStrip (formGet form.description))) } := by
  rcases h2 : (validatePost (pyStrip (formGet form.title))
      (pyStrip (formGet form.minutes)) true).2 with _ | v
  · left
    simp [handlePost, h2]
  · rcases h1 : (validatePost (pyStrip (formGet form.title))
        (pyStrip (formGet form.minutes)) true).1 with _ | ⟨e, es⟩
    · cases hins : cfg.insertRaises
      · right
        exact ⟨v, by simp [handlePost, h1, h2, hins]⟩
      · left
        simp [handlePost, h1, h2, hins]
    · left
      simp [handlePost, h1, h2]

lemma descOk_none {r : RecipeRow} (h : r.description = none) :
    descOk r = true := by
  unfold descOk
  rw [h]

lemma descOk_some {r : RecipeRow} {d : String} (h : r.description = some d) :
    descOk r = !(d.toList.all isPySpace) := by
  unfold descOk
  rw [h]

lemma descOk_new_row (cfg : DbConfig) (f : FormData) (v : Int) :
    descOk { id := cfg.store.nextId,
             title := pyStrip (formGet f.title), minutes := v,
             description := orNone (pyStrip (formGet f.description)),
             created_at := cfg.store.now } = true := by
  rcases ho : orNone (pyStrip (formGet f.description)) with _ | d0
  · exact descOk_none rfl
  · obtain ⟨hd0, hne⟩ := orNone_some ho
    subst hd0
    rw [descOk_some rfl, pyStrip_ne_empty_not_all hne]
    rfl

/-- C10: a description consisting only of whitespace is stored as absent —
the field is trimmed before the empty-to-`None` normalization — and
consequently any request preserves the invariant that no stored row carries
an empty or pure-whitespace description. -/
theorem whitespace_description_stored_absent (form : FormData)
    (cfg : DbConfig)
    (hws : (formGet form.description).toList.all isPySpace = true)
    (hinv : cfg.store.rows.all descOk = true) :
    (∀ db2, (index .post form (some cfg)).2 = some db2 →
      ∀ r ∈ db2.store.rows, r ∈ cfg.store.rows ∨ r.description = none) ∧
    (∀ (m : Method) (f : FormData) db2,
      (index m f (some cfg)).2 = some db2 →
      db2.store.rows.all descOk = true) := by
  constructor
  · intro db2 hdb2 r hr
    rcases handlePost_state form cfg with hst | ⟨v, hst⟩
    · rw [show (index .post form (some cfg)).2 = (handlePost form (some cfg)).2
          from rfl, hst] at hdb2
      injection hdb2 with hdb2
      subst hdb2
      exact Or.inl hr
    · rw [show (index .post form (some cfg)).2 = (handlePost form (some cfg)).2
          from rfl, hst] at hdb2
      injection hdb2 with hdb2
      subst hdb2
      simp only [insertRecipe, List.mem_append, List.mem_singleton] at hr
      rcases hr with hr | hr
      · exact Or.inl hr
      · right
        rw [hr]
        show orNone (pyStrip (formGet form.description)) = none
        rw [pyStrip_eq_empty_of_all hws]
        rfl
  · intro m f db2 hdb2
    cases m with
    | get =>
        simp only [index] at hdb2
        injection hdb2 with hdb2
        subst hdb2
        exact hinv
    | post =>
        rcases handlePost_state f cfg with hst | ⟨v, hst⟩
        · rw [show (index .post f (some cfg)).2 = (handlePost f (some cfg)).2
              from rfl, hst] at hdb2
          injection hdb2 with hdb2
          subst hdb2
          exact hinv
        · rw [show (index .post f (some cfg)).2 = (handlePost f (some cfg)).2
              from rfl, hst] at hdb2
          injection hdb2 with hdb2
          subst hdb2
          simp only [insertRecipe, List.all_append, Bool.and_eq_true]
          exact ⟨hinv, by simp [descOk_new_row cfg f v]⟩

/-- C10 witness: a pure-whitespace description against an empty store. -/
theorem whitespace_description_stored_absent_witness :
    (formGet (FormData.mk (some "t") (some "10") (some " 	")).description).toList.all
        isPySpace = true ∧
    (Store.mk [] 1 0).rows.all descOk = true ∧
    ((∀ db2, (index .post (FormData.mk (some "t") (some "10") (some " 	"))
        (some (DbConfig.mk (Store.mk [] 1 0) false false))).2 = some db2 →
      ∀ r ∈ db2.store.rows,
        r ∈ (Store.mk [] 1 0).rows ∨ r.description = none) ∧
    (∀ (m : Method) (f : FormData) db2,
      (index m f (some (DbConfig.mk (Store.mk [] 1 0) false false))).2 =
          some db2 →
      db2.store.rows.all descOk = true)) :=
  ⟨by decide, by decide,
   whitespace_description_stored_absent
     (FormData.mk (some "t") (some "10") (some " 	"))
     (DbConfig.mk (Store.mk [] 1 0) false false) (by decide) (by decide)⟩

end RecipeApp
